import Mathlib

/-!
A verification development for the lxe network-provisioning layer
(`lxf/networking.go` and the later variant of the same package shipped in
this repository). Go values are shallowly embedded:

* `net.IP` is a `List Nat` of bytes (Go slices of `byte`); `net.ParseCIDR`
  yields 4-byte IPv4 addresses while `net.IPv4` and `net.ParseIP` yield the
  16-byte IPv4-in-IPv6 form, and both representations flow into
  `FindFreeIP`, so the byte-level representation is kept explicit.
* Go byte arithmetic wraps modulo 256 (`% 256` below); `^m` on a byte is
  `255 - m`, and `v &^ m` is `v &&& (255 - m)`.
* `bytes.Compare` is lexicographic comparison of byte slices.
* The `for {}` probe loop of `FindFreeIP` is run against an explicit list of
  random draws (one `rand.Uint32`, split into its four bytes, per
  iteration); the Go loop returns a value exactly when some finite prefix of
  the random stream contains an accepted draw,`none` here means the loop is
  still running after the given draws.
* Go maps `map[string]string` are `String → Option String`; map update and
  the `for k, v := range put.Config` merge are pointwise.
-/

/-- `v4InV6Prefix` of the Go net package: the 12-byte prefix of an
IPv4 address stored in 16-byte form, `net.IPv4` prepends it. -/
def v4InV6 : List Nat := [0, 0, 0, 0, 0, 0, 0, 0, 0, 0, 255, 255]

/-- `net.IPv4 a b c d`: the 16-byte IPv4-in-IPv6 form of `a.b.c.d`. -/
def ipv4 (a b c d : Nat) : List Nat := v4InV6 ++ [a, b, c, d]

/-- `bytes.Compare`: lexicographic byte-slice comparison, a shorter slice
that is a prefix of the longer one compares less. -/
def bytesCompare : List Nat → List Nat → Ordering
  | [], [] => Ordering.eq
  | [], _ :: _ => Ordering.lt
  | _ :: _, [] => Ordering.gt
  | a :: as, b :: bs =>
    if a < b then Ordering.lt
    else if b < a then Ordering.gt
    else bytesCompare as bs

def isLt : Ordering → Bool
  | Ordering.lt => true
  | _ => false

def isGt : Ordering → Bool
  | Ordering.gt => true
  | _ => false

/-- `net.IP.Equal`: equal length means bytewise equality; a 4-byte and a
16-byte address are equal when the 16-byte one carries the `v4InV6` prefix
and agrees on the last 4 bytes. -/
def ipEqual (ip x : List Nat) : Bool :=
  if ip.length = x.length then ip == x
  else if ip.length = 4 && x.length = 16 then
    (x.take 12 == v4InV6) && (ip == x.drop 12)
  else if ip.length = 16 && x.length = 4 then
    (ip.take 12 == v4InV6) && (ip.drop 12 == x)
  else false

/-- `net.IPNet` as `net.ParseCIDR` returns it for IPv4: a 4-byte masked base
address and a 4-byte mask (invariant of the data model: `ip = ip &&& mask`). -/
structure IPNet where
  ip : List Nat
  mask : List Nat
deriving DecidableEq

/-- `broadcastIP[i] = subnet.IP[i] | ^subnet.Mask[i]` over the 4 bytes
(`FindFreeIP`, both variants). -/
def broadcastOf (subnet : IPNet) : List Nat :=
  (List.range 4).map (fun i => (subnet.ip.getD i 0) ||| (255 - subnet.mask.getD i 0))

/-- Go `ip[3]++` on a byte slice: increment the last byte, wrapping mod 256. -/
def bump3 (l : List Nat) : List Nat := l.set 3 ((l.getD 3 0 + 1) % 256)

/-- Go `ip[3]--` on a byte slice: decrement the last byte, wrapping mod 256. -/
def drop3 (l : List Nat) : List Nat := l.set 3 ((l.getD 3 0 + 255) % 256)

/-- One iteration's randomness: `binary.LittleEndian.PutUint32(trialB,
rand.Uint32())` fills four bytes; they are modelled directly. -/
structure Draw where
  b0 : Nat
  b1 : Nat
  b2 : Nat
  b3 : Nat
deriving DecidableEq

/-- `trialB[i] = subnet.IP[i] + (v &^ subnet.Mask[i])` with wrapping byte
addition, where `snIP` is the subnet base address as the loop reads it
(after any in-place mutation of `subnet.IP`). -/
def trialByte (snIP snMask : List Nat) (i b : Nat) : Nat :=
  (snIP.getD i 0 + ((b % 256) &&& (255 - snMask.getD i 0))) % 256

/-- The loop state of `FindFreeIP` once the defaults are applied: the subnet
base address as the trial generator reads it, the mask, the effective start
and end bounds, and the effective lease list (caller leases plus the
network/broadcast entries appended by the function). -/
structure AllocState where
  genIP : List Nat
  mask : List Nat
  start : List Nat
  stop : List Nat
  leases : List (List Nat)
deriving DecidableEq

/-- `trial := net.IPv4(trialB[0], trialB[1], trialB[2], trialB[3])`. -/
def mkTrial (st : AllocState) (d : Draw) : List Nat :=
  ipv4 (trialByte st.genIP st.mask 0 d.b0) (trialByte st.genIP st.mask 1 d.b1)
    (trialByte st.genIP st.mask 2 d.b2) (trialByte st.genIP st.mask 3 d.b3)

/-- `lxf/networking.go` range filter: the candidate survives
`if bytes.Compare(trial, start) < 0 || bytes.Compare(trial, end) > 0
{ continue }`. -/
def inRangeV1 (st : AllocState) (t : List Nat) : Bool :=
  !(isLt (bytesCompare t st.start)) && !(isGt (bytesCompare t st.stop))

/-- The candidate matches no entry of the effective lease list (the inner
`for _, lease := range leases { if trial.Equal(lease) { continue OUTER } }`). -/
def noLeaseHit (st : AllocState) (t : List Nat) : Bool :=
  st.leases.all (fun l => !(ipEqual t l))

/-- A candidate is accepted by `lxf/networking.go`'s `FindFreeIP` iff it
passes the range filter and hits no lease. -/
def acceptV1 (st : AllocState) (t : List Nat) : Bool :=
  inRangeV1 st t && noLeaseHit st t

/-- State set up by `lxf/networking.go`'s `FindFreeIP`.  `networkIP` aliases
`subnet.IP` and `start = networkIP; start[3]++` mutates it in place when
`start == nil`, so the trial generator, the appended network lease entry and
the start bound all see the incremented address; likewise `end = broadcastIP;
end[3]--` mutates the appended broadcast lease entry when `end == nil`.
`leases = append(leases, networkIP, broadcastIP)` happens before the
defaults are applied but the entries are aliases, so they hold the mutated
values by the time the loop scans them. -/
def mkStateV1 (subnet : IPNet) (leases : List (List Nat))
    (start? stop? : Option (List Nat)) : AllocState :=
  let networkIP := subnet.ip
  let broadcastIP := broadcastOf subnet
  let networkIPm := if start?.isNone then bump3 networkIP else networkIP
  let broadcastIPm := if stop?.isNone then drop3 broadcastIP else broadcastIP
  { genIP := networkIPm
    mask := subnet.mask
    start := start?.getD networkIPm
    stop := stop?.getD broadcastIPm
    leases := leases ++ [networkIPm, broadcastIPm] }

/-- The probe loop of `lxf/networking.go`'s `FindFreeIP` over a list of
draws: the first accepted trial is returned, `none` if no draw in the list
is accepted (the Go loop would still be running). -/
def findLoopV1 (st : AllocState) : List Draw → Option (List Nat)
  | [] => none
  | d :: ds =>
    if acceptV1 st (mkTrial st d) then some (mkTrial st d) else findLoopV1 st ds

/-- `FindFreeIP(subnet, leases, start, end)` of `lxf/networking.go`, run on
the given list of random draws. -/
def findFreeIPV1 (subnet : IPNet) (leases : List (List Nat))
    (start? stop? : Option (List Nat)) (draws : List Draw) : Option (List Nat) :=
  findLoopV1 (mkStateV1 subnet leases start? stop?) draws

/-- `FindFreeIP` of `lxf/networking.go` together with the state of the
caller's `subnet` argument after the call returns: `subnet.IP` is mutated in
place by `start = networkIP; start[3]++` when `start == nil`; the mask is
never written. -/
structure AllocRun where
  result : Option (List Nat)
  subnetIPAfter : List Nat
  subnetMaskAfter : List Nat
deriving DecidableEq

def findFreeIPV1Run (subnet : IPNet) (leases : List (List Nat))
    (start? stop? : Option (List Nat)) (draws : List Draw) : AllocRun :=
  { result := findFreeIPV1 subnet leases start? stop? draws
    subnetIPAfter := (mkStateV1 subnet leases start? stop?).genIP
    subnetMaskAfter := subnet.mask }

/-- The range filter of the later variant of `FindFreeIP` (the unnamed
source file): the candidate survives `if bytes.Compare(trial, start) <= 0 ||
bytes.Compare(trial, end) >= 0 { continue }`, i.e. strictly between the
bounds. -/
def inRangeV2 (st : AllocState) (t : List Nat) : Bool :=
  isGt (bytesCompare t st.start) && isLt (bytesCompare t st.stop)

def acceptV2 (st : AllocState) (t : List Nat) : Bool :=
  inRangeV2 st t && noLeaseHit st t

/-- State set up by the later variant of `FindFreeIP`: the defaulted bounds
are fresh 16-byte addresses built with `net.IPv4(..., networkIP[3]+1)` and
`net.IPv4(..., broadcastIP[3]-1)`, nothing is mutated in place, and the lease
list gets the unmodified network and broadcast addresses. -/
def mkStateV2 (subnet : IPNet) (leases : List (List Nat))
    (start? stop? : Option (List Nat)) : AllocState :=
  let networkIP := subnet.ip
  let broadcastIP := broadcastOf subnet
  { genIP := networkIP
    mask := subnet.mask
    start := start?.getD
      (ipv4 (networkIP.getD 0 0) (networkIP.getD 1 0) (networkIP.getD 2 0)
        ((networkIP.getD 3 0 + 1) % 256))
    stop := stop?.getD
      (ipv4 (broadcastIP.getD 0 0) (broadcastIP.getD 1 0) (broadcastIP.getD 2 0)
        ((broadcastIP.getD 3 0 + 255) % 256))
    leases := leases ++ [networkIP, broadcastIP] }

def findLoopV2 (st : AllocState) : List Draw → Option (List Nat)
  | [] => none
  | d :: ds =>
    if acceptV2 st (mkTrial st d) then some (mkTrial st d) else findLoopV2 st ds

/-- `FindFreeIP` of the later variant, run on the given list of draws. -/
def findFreeIPV2 (subnet : IPNet) (leases : List (List Nat))
    (start? stop? : Option (List Nat)) (draws : List Draw) : Option (List Nat) :=
  findLoopV2 (mkStateV2 subnet leases start? stop?) draws

/-- `10.0.0.0/24` as `net.ParseCIDR` returns it: 4-byte base and mask. -/
def subnet24 : IPNet := ⟨[10, 0, 0, 0], [255, 255, 255, 0]⟩

example : broadcastOf subnet24 = [10, 0, 0, 255] := by decide
example : (mkStateV1 subnet24 [] none none).start = [10, 0, 0, 1] := by decide
example : (mkStateV1 subnet24 [] none none).leases = [[10, 0, 0, 1], [10, 0, 0, 254]] := by decide
example : mkTrial (mkStateV1 subnet24 [] none none) ⟨0, 0, 0, 6⟩ = ipv4 10 0 0 7 := by decide
example : bytesCompare (ipv4 10 0 0 7) [10, 0, 0, 1] = Ordering.lt := by decide

/-- A 16-byte trial compares `lt` to any byte slice whose first byte is
positive: `net.IPv4` puts `0` first, so `bytes.Compare` is decided at the
first byte. -/
theorem bytesCompare_ipv4_lt (a b c d x : Nat) (xs : List Nat) (hx : 0 < x) :
    bytesCompare (ipv4 a b c d) (x :: xs) = Ordering.lt := by
  simp [ipv4, v4InV6, bytesCompare, hx]

/-- When the effective start bound begins with a positive byte — in
particular when it is a 4-byte address from `net.ParseCIDR` — no trial ever
passes the `lxf/networking.go` range filter. -/
theorem inRangeV1_false_of_start_head_pos (st : AllocState) (x : Nat)
    (xs : List Nat) (hs : st.start = x :: xs) (hx : 0 < x) (d : Draw) :
    inRangeV1 st (mkTrial st d) = false := by
  have h : bytesCompare (mkTrial st d) st.start = Ordering.lt := by
    rw [hs]; exact bytesCompare_ipv4_lt _ _ _ _ _ _ hx
  simp [inRangeV1, h, isLt]

theorem acceptV1_false_of_start_head_pos (st : AllocState) (x : Nat)
    (xs : List Nat) (hs : st.start = x :: xs) (hx : 0 < x) (d : Draw) :
    acceptV1 st (mkTrial st d) = false := by
  simp [acceptV1, inRangeV1_false_of_start_head_pos st x xs hs hx d]

/-- If no draw is ever accepted, the probe loop never produces a value. -/
theorem findLoopV1_eq_none (st : AllocState)
    (h : ∀ d : Draw, acceptV1 st (mkTrial st d) = false) :
    ∀ draws : List Draw, findLoopV1 st draws = none := by
  intro draws
  induction draws with
  | nil => rfl
  | cons d ds ih => simp [findLoopV1, h d, ih]

/-- A value produced by the probe loop is an accepted trial of one of the
draws. -/
theorem findLoopV1_eq_some (st : AllocState) (a : List Nat) :
    ∀ draws : List Draw, findLoopV1 st draws = some a →
      acceptV1 st a = true ∧ ∃ d ∈ draws, a = mkTrial st d := by
  intro draws
  induction draws with
  | nil => intro h; cases h
  | cons d ds ih =>
    intro h
    rw [show findLoopV1 st (d :: ds) =
        (if acceptV1 st (mkTrial st d) then some (mkTrial st d)
         else findLoopV1 st ds) from rfl] at h
    split at h
    · next hc =>
      obtain rfl : mkTrial st d = a := Option.some.inj h
      exact ⟨hc, d, List.mem_cons_self d ds, rfl⟩
    · next hc =>
      obtain ⟨h1, d', hd', he'⟩ := ih h
      exact ⟨h1, d', List.mem_cons_of_mem d hd', he'⟩

theorem findLoopV2_eq_some (st : AllocState) (a : List Nat) :
    ∀ draws : List Draw, findLoopV2 st draws = some a →
      acceptV2 st a = true ∧ ∃ d ∈ draws, a = mkTrial st d := by
  intro draws
  induction draws with
  | nil => intro h; cases h
  | cons d ds ih =>
    intro h
    rw [show findLoopV2 st (d :: ds) =
        (if acceptV2 st (mkTrial st d) then some (mkTrial st d)
         else findLoopV2 st ds) from rfl] at h
    split at h
    · next hc =>
      obtain rfl : mkTrial st d = a := Option.some.inj h
      exact ⟨hc, d, List.mem_cons_self d ds, rfl⟩
    · next hc =>
      obtain ⟨h1, d', hd', he'⟩ := ih h
      exact ⟨h1, d', List.mem_cons_of_mem d hd', he'⟩

/-- C1: for subnet `10.0.0.0/24` with leases `{10.0.0.5}` and bridge address
`10.0.0.1` reserved (the exact argument shapes the repository produces:
4-byte subnet from `net.ParseCIDR`, 16-byte leases from `net.ParseIP`, and
`start = end = nil`), `FindFreeIP` of `lxf/networking.go` never returns at
all: the defaulted start bound is the 4-byte in-place incremented
`subnet.IP`, every trial is a 16-byte `net.IPv4` value whose first byte is
`0 < 10`, so `bytes.Compare(trial, start) < 0` holds for every draw, every
candidate is rejected and the loop runs forever — the code cannot return the
free address the claim (and the function's own documentation) promises. -/
theorem C1_default_allocation_never_returns :
    ∀ draws : List Draw,
      findFreeIPV1 subnet24 [ipv4 10 0 0 5, ipv4 10 0 0 1] none none draws = none := by
  intro draws
  exact findLoopV1_eq_none _
    (fun d => acceptV1_false_of_start_head_pos _ 10 [0, 0, 1] (by decide) (by decide) d)
    draws

/-- C3: with `start = end = nil` on `10.0.0.0/24` and no caller leases, the
acceptance filter of `lxf/networking.go`'s `FindFreeIP` admits no address at
all — not the claimed inclusive range `(network+1) .. (broadcast−1)` minus
the leases.  Moreover the defaulted bounds themselves are aliased into the
lease list: the effective lease entries are exactly `network+1 = 10.0.0.1`
and `broadcast−1 = 10.0.0.254`, so even apart from the byte-length bug
those two addresses could never be returned. -/
theorem C3_default_range_admits_nothing :
    (∀ d : Draw,
      acceptV1 (mkStateV1 subnet24 [] none none)
        (mkTrial (mkStateV1 subnet24 [] none none) d) = false)
    ∧ (mkStateV1 subnet24 [] none none).leases = [[10, 0, 0, 1], [10, 0, 0, 254]] :=
  ⟨fun d => acceptV1_false_of_start_head_pos _ 10 [0, 0, 1] (by decide) (by decide) d,
   by decide⟩

/-- C4 (amended): `FindFreeIP` of `lxf/networking.go` never writes the
subnet mask, and leaves the subnet base address unchanged whenever `start`
is non-nil; but when `start` is nil it increments the last byte of
`subnet.IP` in place (`start = networkIP; start[3]++` mutates the caller's
slice), so the function is not pure in its `subnet` argument. -/
theorem C4_pure_except_nil_start :
    ∀ (subnet : IPNet) (leases : List (List Nat)) (start? stop? : Option (List Nat))
      (draws : List Draw),
      (start?.isSome = true →
        (findFreeIPV1Run subnet leases start? stop? draws).subnetIPAfter = subnet.ip)
      ∧ (start? = none →
        (findFreeIPV1Run subnet leases start? stop? draws).subnetIPAfter = bump3 subnet.ip)
      ∧ (findFreeIPV1Run subnet leases start? stop? draws).subnetMaskAfter = subnet.mask := by
  intro subnet leases start? stop? draws
  cases start? with
  | none =>
    refine ⟨fun h => by simp at h, fun _ => ?_, rfl⟩
    simp [findFreeIPV1Run, mkStateV1]
  | some v =>
    refine ⟨fun _ => ?_, fun h => by simp at h, rfl⟩
    simp [findFreeIPV1Run, mkStateV1]

/-- C4 counterexample: calling `FindFreeIP` on `10.0.0.0/24` with nil start
leaves the caller's subnet base address mutated to `10.0.0.1`, refuting the
claim that the subnet's base address is unchanged for every choice of
arguments. -/
theorem C4_nil_start_mutates_subnet :
    (findFreeIPV1Run subnet24 [] none none []).subnetIPAfter ≠ subnet24.ip := by
  decide

/-- C5: whenever every candidate that passes the range filter hits a lease
(the acceptable-candidate set is empty), `FindFreeIP` of
`lxf/networking.go` never produces a value on any finite prefix of the
random stream — the loop does not terminate and reports no error; and
conversely any value it does produce is an accepted (in-range, unreserved)
trial of one of the draws. -/
theorem C5_exhausted_space_never_terminates
    (subnet : IPNet) (leases : List (List Nat)) (start? stop? : Option (List Nat))
    (H : ∀ d : Draw,
      inRangeV1 (mkStateV1 subnet leases start? stop?)
        (mkTrial (mkStateV1 subnet leases start? stop?) d) = true →
      noLeaseHit (mkStateV1 subnet leases start? stop?)
        (mkTrial (mkStateV1 subnet leases start? stop?) d) = false) :
    (∀ draws : List Draw, findFreeIPV1 subnet leases start? stop? draws = none)
    ∧ (∀ (draws : List Draw) (a : List Nat),
        findFreeIPV1 subnet leases start? stop? draws = some a →
        acceptV1 (mkStateV1 subnet leases start? stop?) a = true
        ∧ ∃ d ∈ draws, a = mkTrial (mkStateV1 subnet leases start? stop?) d) := by
  constructor
  · intro draws
    apply findLoopV1_eq_none
    intro d
    by_cases hr : inRangeV1 (mkStateV1 subnet leases start? stop?)
        (mkTrial (mkStateV1 subnet leases start? stop?) d) = true
    · simp [acceptV1, hr, H d hr]
    · have hr' : inRangeV1 (mkStateV1 subnet leases start? stop?)
          (mkTrial (mkStateV1 subnet leases start? stop?) d) = false := by
        revert hr
        cases inRangeV1 (mkStateV1 subnet leases start? stop?)
          (mkTrial (mkStateV1 subnet leases start? stop?) d) <;> simp
      simp [acceptV1, hr']
  · intro draws a h
    exact findLoopV1_eq_some _ _ draws h

/-- C5 witness: on `10.0.0.0/24` with no leases and defaulted bounds no
candidate is acceptable (the range filter rejects every trial), and indeed
the loop never returns. -/
theorem C5_exhausted_space_witness :
    (∀ draws : List Draw, findFreeIPV1 subnet24 [] none none draws = none)
    ∧ (∀ (draws : List Draw) (a : List Nat),
        findFreeIPV1 subnet24 [] none none draws = some a →
        acceptV1 (mkStateV1 subnet24 [] none none) a = true
        ∧ ∃ d ∈ draws, a = mkTrial (mkStateV1 subnet24 [] none none) d) :=
  C5_exhausted_space_never_terminates subnet24 [] none none
    (fun d h =>
      absurd ((inRangeV1_false_of_start_head_pos _ 10 [0, 0, 1]
        (by decide) (by decide) d).symm.trans h) (by decide))

theorem isLt_eq_true_iff (o : Ordering) : isLt o = true ↔ o = Ordering.lt := by
  cases o <;> simp [isLt]

theorem isGt_eq_true_iff (o : Ordering) : isGt o = true ↔ o = Ordering.gt := by
  cases o <;> simp [isGt]

/-- C2 counterexample: the repository's later variant of `FindFreeIP` uses
strict bound comparisons.  With `start = end = 10.0.0.5` on `10.0.0.0/24`,
no reservation of `10.0.0.5` (it matches no lease entry and compares `eq`
to both bounds, so it lies within the claimed inclusive range), a draw that
produces exactly `10.0.0.5` is still rejected and the call yields nothing —
the bound addresses themselves are never returnable there, refuting the
claim's "valid iff `start <= candidate <= end`". -/
theorem C2_strict_bounds_counterexample :
    findFreeIPV2 subnet24 [] (some (ipv4 10 0 0 5)) (some (ipv4 10 0 0 5))
      [⟨0, 0, 0, 5⟩] = none
    ∧ mkTrial (mkStateV2 subnet24 [] (some (ipv4 10 0 0 5)) (some (ipv4 10 0 0 5)))
        ⟨0, 0, 0, 5⟩ = ipv4 10 0 0 5
    ∧ bytesCompare (ipv4 10 0 0 5) (ipv4 10 0 0 5) = Ordering.eq
    ∧ noLeaseHit (mkStateV2 subnet24 [] (some (ipv4 10 0 0 5)) (some (ipv4 10 0 0 5)))
        (ipv4 10 0 0 5) = true := by
  decide

/-- C2 (amended): with explicit non-nil 16-byte `start`/`end` (the form
`net.ParseIP` produces), a candidate is accepted by `lxf/networking.go`'s
`FindFreeIP` iff it is within the inclusive bound `start <= c <= end` and
reserved nowhere (caller leases, network address, broadcast address), so
there the bound addresses themselves are returnable when unreserved, and
every returned address lies within the inclusive bound; the later variant
of `FindFreeIP` instead accepts iff `start < c < end` strictly, so its
returned addresses also lie within the inclusive bound but the bound
addresses themselves are never returnable from it. -/
theorem C2_inclusive_v1_strict_v2 (subnet : IPNet) (leases : List (List Nat))
    (s e : List Nat) (hs : s.length = 16) (he : e.length = 16) :
    (∀ c, acceptV1 (mkStateV1 subnet leases (some s) (some e)) c = true ↔
      (isLt (bytesCompare c s) = false ∧ isGt (bytesCompare c e) = false
       ∧ (∀ l ∈ leases, ipEqual c l = false)
       ∧ ipEqual c subnet.ip = false ∧ ipEqual c (broadcastOf subnet) = false))
    ∧ (∀ (draws : List Draw) (a : List Nat),
        findFreeIPV1 subnet leases (some s) (some e) draws = some a →
        isLt (bytesCompare a s) = false ∧ isGt (bytesCompare a e) = false)
    ∧ (∀ c, acceptV2 (mkStateV2 subnet leases (some s) (some e)) c = true ↔
      (bytesCompare c s = Ordering.gt ∧ bytesCompare c e = Ordering.lt
       ∧ (∀ l ∈ leases, ipEqual c l = false)
       ∧ ipEqual c subnet.ip = false ∧ ipEqual c (broadcastOf subnet) = false))
    ∧ (∀ (draws : List Draw) (a : List Nat),
        findFreeIPV2 subnet leases (some s) (some e) draws = some a →
        isLt (bytesCompare a s) = false ∧ isGt (bytesCompare a e) = false) := by
  have h1 : ∀ c, acceptV1 (mkStateV1 subnet leases (some s) (some e)) c = true ↔
      (isLt (bytesCompare c s) = false ∧ isGt (bytesCompare c e) = false
       ∧ (∀ l ∈ leases, ipEqual c l = false)
       ∧ ipEqual c subnet.ip = false ∧ ipEqual c (broadcastOf subnet) = false) := by
    intro c
    simp [acceptV1, inRangeV1, noLeaseHit, mkStateV1, List.all_append,
      Bool.and_eq_true, Bool.not_eq_true', List.all_eq_true, and_assoc]
  have h2 : ∀ c, acceptV2 (mkStateV2 subnet leases (some s) (some e)) c = true ↔
      (bytesCompare c s = Ordering.gt ∧ bytesCompare c e = Ordering.lt
       ∧ (∀ l ∈ leases, ipEqual c l = false)
       ∧ ipEqual c subnet.ip = false ∧ ipEqual c (broadcastOf subnet) = false) := by
    intro c
    simp [acceptV2, inRangeV2, noLeaseHit, mkStateV2, List.all_append,
      Bool.and_eq_true, Bool.not_eq_true', List.all_eq_true, and_assoc,
      isGt_eq_true_iff, isLt_eq_true_iff]
  refine ⟨h1, ?_, h2, ?_⟩
  · intro draws a h
    obtain ⟨hacc, -⟩ := findLoopV1_eq_some _ _ draws h
    exact ⟨((h1 a).mp hacc).1, ((h1 a).mp hacc).2.1⟩
  · intro draws a h
    obtain ⟨hacc, -⟩ := findLoopV2_eq_some _ _ draws h
    obtain ⟨hgt, hlt, -⟩ := (h2 a).mp hacc
    constructor
    · rw [hgt]; rfl
    · rw [hlt]; rfl

/-- C2 witness: on `10.0.0.0/24` with explicit inclusive bounds
`[10.0.0.5, 10.0.0.9]` and no leases, the start address `10.0.0.5` itself is
accepted by `lxf/networking.go`'s `FindFreeIP`. -/
theorem C2_inclusive_v1_witness :
    acceptV1 (mkStateV1 subnet24 [] (some (ipv4 10 0 0 5)) (some (ipv4 10 0 0 9)))
      (ipv4 10 0 0 5) = true :=
  ((C2_inclusive_v1_strict_v2 subnet24 [] (ipv4 10 0 0 5) (ipv4 10 0 0 9)
      (by decide) (by decide)).1 (ipv4 10 0 0 5)).mpr (by decide)

/-- The constant the lxf package compares error text against (defined in the
package outside these files); only its use as a distinguished token matters
here, the lxd client reports missing resources with this message. -/
def ErrorLXDNotFound : String := "not found"

/-- `strconv.FormatBool true`. -/
def formatBoolTrue : String := "true"

/-- A Go `map[string]string` value, read pointwise. -/
abbrev ConfigMap : Type := String → Option String

/-- `for k, v := range put.Config { network.Config[k] = v }`: every key of
`desired` overwrites, every other key keeps its value in `base`.  The Go
iteration order is unobservable because the desired keys are distinct. -/
def mergeConfig (base desired : ConfigMap) : ConfigMap :=
  fun k => match desired k with
    | some v => some v
    | none => base k

/-- The `put.Config` map built at the top of `EnsureBridge` for a given
bridge address string. -/
def desiredConfig (address : String) : ConfigMap := fun k =>
  if k = "ipv4.address" then some address
  else if k = "ipv4.dhcp" then some formatBoolTrue
  else if k = "ipv4.nat" then some formatBoolTrue
  else if k = "ipv6.address" then some "none"
  else if k = "raw.dnsmasq" then some "port=0"
  else none

def parseByteNat (s : String) : Option Nat :=
  match s.toNat? with
  | some n => if n ≤ 255 then some n else none
  | none => none

def parseIPv4Dots (s : String) : Option (List Nat) :=
  match (s.splitOn ".").mapM parseByteNat with
  | some bs => if bs.length = 4 then some bs else none
  | none => none

/-- `net.CIDRMask(n, 32)` byte `i`. -/
def cidrMaskByte (n i : Nat) : Nat :=
  if 8 * (i + 1) ≤ n then 255
  else if n ≤ 8 * i then 0
  else 256 - 2 ^ (8 - (n - 8 * i))

def cidrMask (n : Nat) : List Nat := (List.range 4).map (cidrMaskByte n)

/-- `net.ParseCIDR` for IPv4 `a.b.c.d/n`: the masked 4-byte base address and
the 4-byte mask (malformed input yields `none`, the Go error case). -/
def parseCIDR (s : String) : Option IPNet :=
  match s.splitOn "/" with
  | [a, m] =>
    match parseIPv4Dots a, m.toNat? with
    | some ip, some n =>
      if n ≤ 32 then some ⟨List.zipWith (fun x y => x &&& y) ip (cidrMask n), cidrMask n⟩
      else none
    | _, _ => none
  | _ => none

def bitsInByte (m : Nat) : Nat := ((List.range 8).filter (fun b => m.testBit b)).length

/-- `(*net.IPNet).String()` for a canonical IPv4 network. -/
def ipNetString (n : IPNet) : String :=
  String.intercalate "." (n.ip.map toString) ++ "/" ++ toString ((n.mask.map bitsInByte).sum)

/-- The bridge address string `EnsureBridge` computes before contacting the
remote controller: `"auto"` for an empty cidr, otherwise the parsed network
with its last byte incremented (`net.IP[3]++`) rendered as a CIDR string;
`none` models the early `return err` on a parse failure. -/
def computeAddress (cidr : String) : Option String :=
  if cidr = "" then some "auto"
  else match parseCIDR cidr with
    | some n => some (ipNetString ⟨bump3 n.ip, n.mask⟩)
    | none => none

/-- What `l.server.GetNetwork(name)` returned: the network with its ETag, or
an error message (`ErrorLXDNotFound` for a missing network). -/
inductive GetNetworkR where
  | ok (typ : String) (config : ConfigMap) (etag : String)
  | fail (msg : String)

/-- `api.NetworksPost` as `EnsureBridge` fills it on the create path. -/
structure NetworksPostM where
  name : String
  typ : String
  managed : Bool
  description : String
  config : ConfigMap

/-- The observable outcome of one `EnsureBridge` call: which single remote
write (if any) it performs, and what it returns. -/
inductive EnsureOutcome where
  | parseErr
  | created (post : NetworksPostM)
  | getErr (msg : String)
  | typeMismatch (msg : String)
  | doneNoWrite
  | updated (name : String) (config : ConfigMap) (etag : String)

/-- `EnsureBridge(name, cidr, nat, createOnly)` of `lxf/networking.go`,
with the `GetNetwork` reply passed in.  The `nat` parameter is accepted but
never read, exactly as in the source, where both `ipv4.dhcp` and `ipv4.nat`
are set to `strconv.FormatBool(true)` unconditionally. -/
def ensureBridge (name cidr : String) (nat createOnly : Bool)
    (g : GetNetworkR) : EnsureOutcome :=
  match computeAddress cidr with
  | none => EnsureOutcome.parseErr
  | some address =>
    match g with
    | GetNetworkR.fail msg =>
      if msg = ErrorLXDNotFound then
        EnsureOutcome.created
          { name := name
            typ := "bridge"
            managed := true
            description := "managed by LXE, default bridge"
            config := desiredConfig address }
      else EnsureOutcome.getErr msg
    | GetNetworkR.ok typ config etag =>
      if typ ≠ "bridge" then
        EnsureOutcome.typeMismatch ("Expected " ++ name ++ " to be a bridge, but is " ++ typ)
      else if createOnly then EnsureOutcome.doneNoWrite
      else EnsureOutcome.updated name (mergeConfig config (desiredConfig address)) etag

/-- `EnsureBridge` of the repository's later variant of the lxf package:
identical control flow, only the type-mismatch message differs in casing. -/
def ensureBridgeA (name cidr : String) (nat createOnly : Bool)
    (g : GetNetworkR) : EnsureOutcome :=
  match computeAddress cidr with
  | none => EnsureOutcome.parseErr
  | some address =>
    match g with
    | GetNetworkR.fail msg =>
      if msg = ErrorLXDNotFound then
        EnsureOutcome.created
          { name := name
            typ := "bridge"
            managed := true
            description := "managed by LXE, default bridge"
            config := desiredConfig address }
      else EnsureOutcome.getErr msg
    | GetNetworkR.ok typ config etag =>
      if typ ≠ "bridge" then
        EnsureOutcome.typeMismatch ("expected " ++ name ++ " to be a bridge, but is " ++ typ)
      else if createOnly then EnsureOutcome.doneNoWrite
      else EnsureOutcome.updated name (mergeConfig config (desiredConfig address)) etag

/-- `Sandbox.Metadata` as `DetachCNI` reads it. -/
structure SandboxM where
  namespc : String
  name : String

/-- `Container.State()`'s payload. -/
structure ProcState where
  pid : Int

/-- The observable outcome of one `DetachCNI` call: either an early return
before any CNI delete, or the `network.DetachCNIInterface` call that was
made (with the error it returned propagated as the call's result). -/
inductive DetachOutcome where
  | earlyErr (e : String)
  | deleteCalled (ns nm id : String) (pid : Int) (ret : Option String)

/-- `DetachCNI(c)` of `lxf/networking.go`, with the `Sandbox()` and
`State()` lookups and the CNI delete's own result passed in.  `pid` starts
at the zero value; a `State()` error other than `ErrorLXDNotFound` aborts,
the not-found error falls through with `pid = 0`, success uses `st.Pid`. -/
def detachCNI (id : String) (sandboxR : Except String SandboxM)
    (stateR : Except String ProcState) (delErr : Option String) : DetachOutcome :=
  match sandboxR with
  | Except.error e => DetachOutcome.earlyErr e
  | Except.ok s =>
    match stateR with
    | Except.error e =>
      if e ≠ ErrorLXDNotFound then DetachOutcome.earlyErr e
      else DetachOutcome.deleteCalled s.namespc s.name id 0 delErr
    | Except.ok st => DetachOutcome.deleteCalled s.namespc s.name id st.pid delErr

theorem desiredConfig_nat_lookup (address : String) :
    desiredConfig address "ipv4.nat" = some "true" := by
  unfold desiredConfig
  rw [if_neg (by decide), if_neg (by decide), if_pos rfl]
  rfl

/-- C6: `EnsureBridge("br0", "", nat, false)` when `GetNetwork` reports
not-found performs exactly one `CreateNetwork` — of a managed resource of
type `bridge` whose configuration carries `ipv4.address = "auto"`,
`ipv4.dhcp = "true"`, `ipv4.nat = "true"` and `ipv6.address = "none"` — and
returns its result with no update call (the `created` outcome is the only
write), for either value of the `nat` argument. -/
theorem C6_absent_bridge_created :
    ∀ natArg : Bool,
      ensureBridge "br0" "" natArg false (GetNetworkR.fail ErrorLXDNotFound)
        = EnsureOutcome.created
            { name := "br0"
              typ := "bridge"
              managed := true
              description := "managed by LXE, default bridge"
              config := desiredConfig "auto" }
      ∧ desiredConfig "auto" "ipv4.address" = some "auto"
      ∧ desiredConfig "auto" "ipv4.dhcp" = some "true"
      ∧ desiredConfig "auto" "ipv4.nat" = some "true"
      ∧ desiredConfig "auto" "ipv6.address" = some "none" := by
  intro natArg
  exact ⟨rfl, rfl, rfl, rfl, rfl⟩

/-- C7: against a pre-existing bridge with any configuration `cfg`,
`EnsureBridge` with `createOnly = false` submits exactly one update, guarded
by the ETag returned by the same call's `GetNetwork`, whose configuration is
the merge of the desired keys into `cfg`; desired keys overwrite, unrelated
keys are preserved, and the merge is idempotent, so a second identical call
yields the same final configuration. -/
theorem C7_merge_update_idempotent (name cidr addr : String) (natArg : Bool)
    (cfg : ConfigMap) (etag : String) (h : computeAddress cidr = some addr) :
    ensureBridge name cidr natArg false (GetNetworkR.ok "bridge" cfg etag)
      = EnsureOutcome.updated name (mergeConfig cfg (desiredConfig addr)) etag
    ∧ (∀ k v, desiredConfig addr k = some v →
        mergeConfig cfg (desiredConfig addr) k = some v)
    ∧ (∀ k, desiredConfig addr k = none →
        mergeConfig cfg (desiredConfig addr) k = cfg k)
    ∧ mergeConfig (mergeConfig cfg (desiredConfig addr)) (desiredConfig addr)
        = mergeConfig cfg (desiredConfig addr) := by
  refine ⟨?_, ?_, ?_, ?_⟩
  · simp [ensureBridge, h]
  · intro k v hk
    simp [mergeConfig, hk]
  · intro k hk
    simp [mergeConfig, hk]
  · funext k
    cases hdk : desiredConfig addr k <;> simp [mergeConfig, hdk]

/-- C7 witness: the merge-and-update behaviour at a concrete pre-existing
bridge whose configuration holds one unrelated key. -/
theorem C7_merge_witness :
    ensureBridge "br0" "" true false
        (GetNetworkR.ok "bridge" (fun k => if k = "user.x" then some "y" else none) "etag1")
      = EnsureOutcome.updated "br0"
          (mergeConfig (fun k => if k = "user.x" then some "y" else none)
            (desiredConfig "auto")) "etag1"
    ∧ (∀ k v, desiredConfig "auto" k = some v →
        mergeConfig (fun k => if k = "user.x" then some "y" else none)
          (desiredConfig "auto") k = some v)
    ∧ (∀ k, desiredConfig "auto" k = none →
        mergeConfig (fun k => if k = "user.x" then some "y" else none)
          (desiredConfig "auto") k
          = (fun k => if k = "user.x" then some "y" else none : ConfigMap) k)
    ∧ mergeConfig
        (mergeConfig (fun k => if k = "user.x" then some "y" else none)
          (desiredConfig "auto")) (desiredConfig "auto")
        = mergeConfig (fun k => if k = "user.x" then some "y" else none)
            (desiredConfig "auto") :=
  C7_merge_update_idempotent "br0" "" "auto" true
    (fun k => if k = "user.x" then some "y" else none) "etag1" rfl

/-- C8: for an existing network of type `bridge`, `EnsureBridge` with
`createOnly = true` returns success with no remote write of any kind — no
`CreateNetwork`, no `UpdateNetwork` — leaving the configuration untouched. -/
theorem C8_createOnly_no_write (name cidr addr : String) (natArg : Bool)
    (cfg : ConfigMap) (etag : String) (h : computeAddress cidr = some addr) :
    ensureBridge name cidr natArg true (GetNetworkR.ok "bridge" cfg etag)
      = EnsureOutcome.doneNoWrite := by
  simp [ensureBridge, h]

/-- C8 witness: a concrete pre-existing bridge is left untouched by a
create-only call. -/
theorem C8_createOnly_witness :
    ensureBridge "br0" "" false true
        (GetNetworkR.ok "bridge" (fun _ => none) "etag2")
      = EnsureOutcome.doneNoWrite :=
  C8_createOnly_no_write "br0" "" "auto" false (fun _ => none) "etag2" rfl

/-- C9: `DetachCNI` resolves the sandbox (any sandbox error aborts), then
the process state: a not-found state error is treated as already-gone and
the CNI delete is invoked with process ID 0; any other state error aborts
before any delete; a successful lookup invokes the delete with the
looked-up PID. -/
theorem C9_detach_error_discrimination (id : String) (s : SandboxM)
    (delErr : Option String) :
    (∀ (e : String) (stR : Except String ProcState),
        detachCNI id (Except.error e) stR delErr = DetachOutcome.earlyErr e)
    ∧ detachCNI id (Except.ok s) (Except.error ErrorLXDNotFound) delErr
        = DetachOutcome.deleteCalled s.namespc s.name id 0 delErr
    ∧ (∀ e : String, e ≠ ErrorLXDNotFound →
        detachCNI id (Except.ok s) (Except.error e) delErr = DetachOutcome.earlyErr e)
    ∧ (∀ st : ProcState,
        detachCNI id (Except.ok s) (Except.ok st) delErr
          = DetachOutcome.deleteCalled s.namespc s.name id st.pid delErr) := by
  refine ⟨fun e stR => rfl, ?_, fun e he => ?_, fun st => rfl⟩
  · simp [detachCNI]
  · simp [detachCNI, he]

/-- C10: the `nat` argument of `EnsureBridge` is never consulted — flipping
it changes nothing in either variant of the function — and every
configuration it creates or merges sets `ipv4.nat` to `"true"`
unconditionally (`strconv.FormatBool(true)` in the source). -/
theorem C10_nat_argument_ignored :
    (∀ (name cidr : String) (createOnly : Bool) (g : GetNetworkR),
        ensureBridge name cidr true createOnly g
          = ensureBridge name cidr false createOnly g)
    ∧ (∀ (name cidr : String) (createOnly : Bool) (g : GetNetworkR),
        ensureBridgeA name cidr true createOnly g
          = ensureBridgeA name cidr false createOnly g)
    ∧ (∀ (name cidr : String) (natArg createOnly : Bool) (g : GetNetworkR)
        (p : NetworksPostM),
        ensureBridge name cidr natArg createOnly g = EnsureOutcome.created p →
        p.config "ipv4.nat" = some "true")
    ∧ (∀ (name cidr : String) (natArg createOnly : Bool) (g : GetNetworkR)
        (n : String) (c : ConfigMap) (etag : String),
        ensureBridge name cidr natArg createOnly g = EnsureOutcome.updated n c etag →
        c "ipv4.nat" = some "true") := by
  refine ⟨fun _ _ _ _ => rfl, fun _ _ _ _ => rfl, ?_, ?_⟩
  · intro name cidr natArg co g p h
    unfold ensureBridge at h
    split at h
    · cases h
    · split at h
      · split at h
        · injection h with h'
          subst h'
          simp [desiredConfig_nat_lookup]
        · cases h
      · split at h
        · cases h
        · split at h
          · cases h
          · cases h
  · intro name cidr natArg co g n c etag h
    unfold ensureBridge at h
    split at h
    · cases h
    · split at h
      · split at h
        · cases h
        · cases h
      · split at h
        · cases h
        · split at h
          · cases h
          · injection h with hn hc he
            subst hc
            simp [mergeConfig, desiredConfig_nat_lookup]
